import Mathlib

/-!
Shallow embedding of `statistics_and_trends.py` (global water consumption
statistics-and-trends script).

Modelling choices:
* A dataframe cell is `na` (pandas NaN in a data cell), a rational number
  (the CSV numerics are finite decimals, hence exact rationals), or a string.
* A dataframe carries the names of its index levels (`[]` is the default
  range index produced by `read_csv`), its column names, and its rows; each
  row carries its index key (a tuple, one cell per index level) and its
  column cells.
* Floating-point results of `np.mean` / `np.std` / `scipy.stats.skew` /
  `scipy.stats.kurtosis` are modelled as `Option ℝ`: `none` stands for the
  IEEE NaN those libraries return (on empty data, or zero variance), and
  `some r` for the exact real value of the formula they compute.
* Side effects (calls to `print` and `plt.savefig`) are modelled as an
  explicit effect trace; exact payloads of exploratory prints
  (`df.head()`, `df.describe()`, `df.corr()`) and numeric formatting are
  abstracted to tags, since no property depends on their text.
* Fallible library operations (`pd.read_csv` on a missing file, column
  lookup on a missing column, seaborn on a missing column) return `Except`.
-/

namespace StatsTrends

/-- A single cell of the tabular dataset. -/
inductive Cell where
  | na : Cell
  | num : ℚ → Cell
  | str : String → Cell
deriving DecidableEq, Repr

/-- A row: its index key (one cell per index level) and its column cells. -/
structure Row where
  index : List Cell
  cells : List Cell
deriving DecidableEq, Repr

/-- A dataframe: index level names (`[]` = default range index), column
names, and rows. -/
structure DataFrame where
  indexNames : List String
  cols : List String
  rows : List Row
deriving DecidableEq, Repr

/-- Effects the script performs: writing text to stdout and saving a chart
to an image file. -/
inductive Eff where
  | print : String → Eff
  | savefig : String → Eff
deriving DecidableEq, Repr

/-- Exceptions the underlying libraries raise. -/
inductive Err where
  | fileNotFound : Err
  | keyError : String → Err
  | valueError : String → Err
  | typeError : String → Err
deriving DecidableEq, Repr

/-- Whether a cell holds a number. -/
def Cell.isNum : Cell → Bool
  | Cell.num _ => true
  | _ => false

/-- Numeric content of a cell, when it holds a number. -/
def cellNum : Cell → Option ℚ
  | Cell.num q => some q
  | _ => none

/-- Column access `df[col]`: the cells of the column, or a KeyError when
absent. Rows shorter
than the header read as NaN. -/
def lookupCol (df : DataFrame) (col : String) : Option (List Cell) :=
  if col ∈ df.cols then
    some (df.rows.map fun r => r.cells.getD (df.cols.indexOf col) Cell.na)
  else none

/-- Embeds `df.set_index(name)`: move the named column into the
(single-level)
index. -/
def set_index (df : DataFrame) (name : String) : DataFrame :=
  let i := df.cols.indexOf name
  { indexNames := [name]
    cols := df.cols.eraseIdx i
    rows := df.rows.map fun r =>
      { index := [r.cells.getD i Cell.na], cells := r.cells.eraseIdx i } }

/-- Worker for `dedupBy`: drop every element whose key was already seen. -/
def dedupByAux {α β : Type} [DecidableEq β] (f : α → β) :
    List β → List α → List α
  | _, [] => []
  | seen, a :: as =>
    if f a ∈ seen then dedupByAux f seen as
    else a :: dedupByAux f (f a :: seen) as

/-- Keep the first occurrence of each key, in order (pandas
`drop_duplicates` with the default `keep` policy). -/
def dedupBy {α β : Type} [DecidableEq β] (f : α → β) (l : List α) :
    List α :=
  dedupByAux f [] l

/-- Embeds `df.drop_duplicates()`: duplicates are decided on the column
cells
only; the index does not participate. -/
def drop_duplicates (df : DataFrame) : DataFrame :=
  { df with rows := dedupBy Row.cells df.rows }

/-- A row free of NaN in its column cells. -/
def rowNoNA (r : Row) : Prop := Cell.na ∉ r.cells

instance (r : Row) : Decidable (rowNoNA r) :=
  inferInstanceAs (Decidable (Cell.na ∉ r.cells))

/-- Embeds `df.dropna()`: drop every row holding a NaN in a column cell. -/
def dropna (df : DataFrame) : DataFrame :=
  { df with rows := df.rows.filter fun r => decide (rowNoNA r) }

/-- Embeds `preprocessing(df)`: set `Year` as index when present, drop
duplicate
rows, drop rows with missing values, and print the exploration summaries.
Returns the cleaned dataframe and the effect trace. -/
def preprocessing (df : DataFrame) : DataFrame × List Eff :=
  let df1 := if "Year" ∈ df.cols then set_index df "Year" else df
  let df2 := drop_duplicates df1
  let df3 := dropna df2
  (df3, [Eff.print "Dataset Head", Eff.print "Dataset Description",
         Eff.print "Correlation Matrix"])

/-- Number of data points, as a rational. -/
def nQ (data : List ℚ) : ℚ := data.length

/-- Arithmetic mean of the data (exact value of `np.mean`). -/
def meanQ (data : List ℚ) : ℚ := data.sum / nQ data

/-- k-th central moment with population normalisation `1/n`. -/
def centralMoment (k : ℕ) (data : List ℚ) : ℚ :=
  ((data.map fun x => (x - meanQ data) ^ k).sum) / nQ data

/-- Sample variance with `ddof=1` (divisor `n - 1`), as `np.std` uses. -/
def sampleVar (data : List ℚ) : ℚ :=
  ((data.map fun x => (x - meanQ data) ^ 2).sum) / (nQ data - 1)

/-- Embeds `np.mean(data)`: NaN on empty data, else the arithmetic mean. -/
noncomputable def npMean (data : List ℚ) : Option ℝ :=
  if data = [] then none else some ((meanQ data : ℚ) : ℝ)

/-- Embeds `np.std(data, ddof=1)`: NaN when `n ≤ 1` (degrees of freedom
not positive),
otherwise the square root of the `ddof=1` sample variance. -/
noncomputable def npStd (data : List ℚ) : Option ℝ :=
  if data.length ≤ 1 then none
  else some (Real.sqrt ((sampleVar data : ℚ) : ℝ))

/-- Embeds `scipy.stats.skew(data)` (default `bias=True`): `m3 / m2 ** 1.5`,
NaN when the second central moment vanishes (empty or constant data).
Since `m2 ≥ 0`, `m2 ** 1.5 = (√m2)³`. -/
noncomputable def ssSkew (data : List ℚ) : Option ℝ :=
  if centralMoment 2 data = 0 then none
  else some (((centralMoment 3 data : ℚ) : ℝ) /
    Real.sqrt ((centralMoment 2 data : ℚ) : ℝ) ^ 3)

/-- Embeds `scipy.stats.kurtosis(data)` (default Fisher definition,
`bias=True`):
`m4 / m2 ** 2 - 3`, NaN when the second central moment vanishes. -/
noncomputable def ssKurtosis (data : List ℚ) : Option ℝ :=
  if centralMoment 2 data = 0 then none
  else some (((centralMoment 4 data / centralMoment 2 data ^ 2 : ℚ) : ℝ) - 3)

/-- The four-tuple of moments the script computes. -/
abbrev Moments := Option ℝ × Option ℝ × Option ℝ × Option ℝ

/-- Embeds `statistical_analysis(df, col)`: take the column (KeyError when
absent) and drop its missing values — `df[col].dropna()` removes only NaN
and keeps string cells. When a non-numeric cell remains, `np.mean` /
`scipy.stats` raise TypeError on the mixed column; otherwise the mean,
standard deviation, skewness and excess kurtosis of the numeric values are
returned. -/
noncomputable def statistical_analysis (df : DataFrame) (col : String) :
    Except Err Moments :=
  match lookupCol df col with
  | none => Except.error (Err.keyError col)
  | some cells =>
    let kept := cells.filter fun c => c ≠ Cell.na
    if kept.all Cell.isNum then
      let data := kept.filterMap cellNum
      Except.ok (npMean data, npStd data, ssSkew data, ssKurtosis data)
    else Except.error (Err.typeError col)

/-- The skewness phrase `writing` selects (source lines 185–190). -/
noncomputable def skew_text (s : ℝ) : String :=
  if s > 0.5 then "right-skewed"
  else if s < -0.5 then "left-skewed"
  else "approximately symmetric"

/-- The kurtosis phrase `writing` selects (source lines 193–198). -/
noncomputable def kurt_text (k : ℝ) : String :=
  if k > 1 then "leptokurtic (heavy-tailed)"
  else if k < -1 then "platykurtic (light-tailed)"
  else "mesokurtic (normal-like)"

/-- Phrase selection on a possibly-NaN skewness: every comparison against
NaN is false in IEEE arithmetic, so NaN lands in the final branch. -/
noncomputable def skew_textO : Option ℝ → String
  | none => "approximately symmetric"
  | some s => skew_text s

/-- Phrase selection on a possibly-NaN kurtosis (NaN comparisons false). -/
noncomputable def kurt_textO : Option ℝ → String
  | none => "mesokurtic (normal-like)"
  | some k => kurt_text k

/-- Embeds `writing(moments, col)`: the three printed lines. Numeric
formatting
of the values line is abstracted to a tag. -/
noncomputable def writing (moments : Moments) (col : String) : List Eff :=
  [Eff.print ("For the attribute " ++ col ++ ":"),
   Eff.print "Moment values",
   Eff.print ("The data is " ++ skew_textO moments.2.2.1 ++ " and " ++
     kurt_textO moments.2.2.2 ++ ".")]

/-- Embeds `plot_relational_plot(df)`: seaborn raises when a named column
is
missing; otherwise the chart is saved to `relational_plot.png`. -/
def plot_relational_plot (df : DataFrame) : Except Err (List Eff) :=
  if "Rainfall Impact (mm)" ∉ df.cols then
    Except.error (Err.valueError "Rainfall Impact (mm)")
  else if "Groundwater Depletion Rate (%)" ∉ df.cols then
    Except.error (Err.valueError "Groundwater Depletion Rate (%)")
  else if "Water Scarcity Level" ∉ df.cols then
    Except.error (Err.valueError "Water Scarcity Level")
  else Except.ok [Eff.savefig "relational_plot.png"]

/-- Embeds `plot_statistical_plot(df)`: `df[...]` raises KeyError when the
column
is missing; otherwise the chart is saved to `statistical_plot.png`. -/
def plot_statistical_plot (df : DataFrame) : Except Err (List Eff) :=
  if "Per Capita Water Use (L/Day)" ∉ df.cols then
    Except.error (Err.keyError "Per Capita Water Use (L/Day)")
  else Except.ok [Eff.savefig "statistical_plot.png"]

/-- Embeds `plot_categorical_plot(df)`: `groupby`/column access raise
KeyError on
a missing column; otherwise the chart is saved to `categorical_plot.png`. -/
def plot_categorical_plot (df : DataFrame) : Except Err (List Eff) :=
  if "Water Scarcity Level" ∉ df.cols then
    Except.error (Err.keyError "Water Scarcity Level")
  else if "Total Water Consumption (Billion m3)" ∉ df.cols then
    Except.error (Err.keyError "Total Water Consumption (Billion m3)")
  else Except.ok [Eff.savefig "categorical_plot.png"]

/-- Embeds `pd.read_csv("data.csv")`: the parsed file, or
FileNotFoundError when
the file is absent (`none`). -/
def read_csv (file : Option DataFrame) : Except Err DataFrame :=
  match file with
  | none => Except.error Err.fileNotFound
  | some df => Except.ok df

/-- Embeds `main()`: load, clean, draw the three charts, compute the
moments of
the chosen column and print the interpretation. No step catches an
exception; each is propagated by the monadic bind. -/
noncomputable def main (file : Option DataFrame) : Except Err (List Eff) := do
  let df0 ← read_csv file
  let p := preprocessing df0
  let df := p.1
  let col := "Per Capita Water Use (L/Day)"
  let e1 ← plot_relational_plot df
  let e2 ← plot_statistical_plot df
  let e3 ← plot_categorical_plot df
  let moments ← statistical_analysis df col
  Except.ok (p.2 ++ e1 ++ e2 ++ e3 ++ writing moments col)

/-- Wraps `statistical_analysis` with the post-call dataframe made
explicit: the
source performs no in-place operation (`df[col].dropna()` works on a
copy), so the dataframe after the call is the dataframe before it. -/
noncomputable def statistical_analysis_call (df : DataFrame) (col : String) :
    Except Err Moments × DataFrame :=
  (statistical_analysis df col, df)

/-! Spec-side definitions, written from the words of the specification
(Glossary:
"Skewness: third standardized moment"; "Excess kurtosis: fourth standardized
moment minus 3"), to be compared with the embedded library formulas. -/

/-- The arithmetic mean of the data, as a real number. -/
noncomputable def specArithMean (data : List ℚ) : ℝ :=
  (data.map fun x : ℚ => (x : ℝ)).sum / data.length

/-- k-th central moment with population normalisation, as a real number. -/
noncomputable def momR (k : ℕ) (data : List ℚ) : ℝ :=
  ((data.map fun x : ℚ => ((x : ℝ) - specArithMean data) ^ k).sum) /
    data.length

/-- The population standard deviation: square root of the mean squared
deviation. -/
noncomputable def specPopulationStd (data : List ℚ) : ℝ :=
  Real.sqrt (((data.map fun x : ℚ =>
    ((x : ℝ) - specArithMean data) ^ 2).sum) / data.length)

/-- The k-th standardized moment: the mean of the k-th powers of the
deviations divided by the population standard deviation. -/
noncomputable def specStdMoment (k : ℕ) (data : List ℚ) : ℝ :=
  ((data.map fun x : ℚ =>
    (((x : ℝ) - specArithMean data) / specPopulationStd data) ^ k).sum) /
    data.length

/-- The sample standard deviation (Bessel-corrected, divisor `n - 1`). -/
noncomputable def specSampleStd (data : List ℚ) : ℝ :=
  Real.sqrt (((data.map fun x : ℚ =>
    ((x : ℝ) - specArithMean data) ^ 2).sum) / ((data.length : ℝ) - 1))

/-! Helper lemmas. -/

theorem ratCast_list_sum (l : List ℚ) :
    ((l.sum : ℚ) : ℝ) = (l.map fun q : ℚ => (q : ℝ)).sum := by
  induction l with
  | nil => simp
  | cons a t ih => simp [ih]

theorem sum_map_div {α : Type} (l : List α) (f : α → ℝ) (c : ℝ) :
    (l.map fun x => f x / c).sum = (l.map f).sum / c := by
  induction l with
  | nil => simp
  | cons a t ih => simp [ih, add_div]

theorem meanQ_cast (data : List ℚ) :
    ((meanQ data : ℚ) : ℝ) = specArithMean data := by
  unfold meanQ specArithMean nQ
  rw [Rat.cast_div, ratCast_list_sum, Rat.cast_natCast]

theorem centralMoment_cast (k : ℕ) (data : List ℚ) :
    ((centralMoment k data : ℚ) : ℝ) = momR k data := by
  unfold centralMoment momR nQ
  rw [Rat.cast_div, ratCast_list_sum, List.map_map]
  have hf : ((fun q : ℚ => (q : ℝ)) ∘ fun x : ℚ => (x - meanQ data) ^ k) =
      fun x : ℚ => ((x : ℝ) - specArithMean data) ^ k := by
    funext x
    simp only [Function.comp]
    push_cast [meanQ_cast]
    ring
  rw [hf]
  push_cast
  ring

theorem sampleVar_cast (data : List ℚ) :
    ((sampleVar data : ℚ) : ℝ) =
      ((data.map fun x : ℚ => ((x : ℝ) - specArithMean data) ^ 2).sum) /
        ((data.length : ℝ) - 1) := by
  unfold sampleVar nQ
  rw [Rat.cast_div, ratCast_list_sum, List.map_map]
  have hf : ((fun q : ℚ => (q : ℝ)) ∘ fun x : ℚ => (x - meanQ data) ^ 2) =
      fun x : ℚ => ((x : ℝ) - specArithMean data) ^ 2 := by
    funext x
    simp only [Function.comp]
    push_cast [meanQ_cast]
    ring
  rw [hf]
  push_cast
  ring

theorem specPopulationStd_eq (data : List ℚ) :
    specPopulationStd data = Real.sqrt (momR 2 data) := rfl

theorem specStdMoment_eq (k : ℕ) (data : List ℚ) :
    specStdMoment k data = momR k data / specPopulationStd data ^ k := by
  unfold specStdMoment momR
  simp only [div_pow]
  rw [sum_map_div, div_right_comm]

theorem momR_two_nonneg (data : List ℚ) : 0 ≤ momR 2 data := by
  unfold momR
  apply div_nonneg
  · apply List.sum_nonneg
    intro x hx
    simp only [List.mem_map] at hx
    obtain ⟨q, _, rfl⟩ := hx
    positivity
  · exact Nat.cast_nonneg _

theorem centralMoment_nil (k : ℕ) : centralMoment k [] = 0 := by
  simp [centralMoment, nQ]

theorem centralMoment_two_singleton (x : ℚ) : centralMoment 2 [x] = 0 := by
  simp [centralMoment, nQ, meanQ]

theorem filterMap_cellNum_filter (cells : List Cell) :
    ((cells.filter fun c => c ≠ Cell.na).filterMap cellNum) =
      cells.filterMap cellNum := by
  induction cells with
  | nil => rfl
  | cons a t ih =>
    simp only [ne_eq, decide_not] at ih ⊢
    cases a <;> simp [List.filter_cons, List.filterMap_cons, cellNum, ih]

theorem dedupByAux_key_unseen {α β : Type} [DecidableEq β] (f : α → β) :
    ∀ (l : List α) (seen : List β) (a : α), a ∈ dedupByAux f seen l →
      f a ∉ seen := by
  intro l
  induction l with
  | nil =>
    intro seen a ha
    exact absurd ha (List.not_mem_nil a)
  | cons b bs ih =>
    intro seen a ha
    rw [dedupByAux] at ha
    by_cases hb : f b ∈ seen
    · rw [if_pos hb] at ha
      exact ih seen a ha
    · rw [if_neg hb] at ha
      rcases List.mem_cons.mp ha with h | h
      · rw [h]
        exact hb
      · have := ih (f b :: seen) a h
        exact fun hs => this (List.mem_cons_of_mem _ hs)

theorem dedupByAux_pairwise {α β : Type} [DecidableEq β] (f : α → β) :
    ∀ (l : List α) (seen : List β),
      (dedupByAux f seen l).Pairwise fun a b => f a ≠ f b := by
  intro l
  induction l with
  | nil =>
    intro seen
    rw [dedupByAux]
    exact List.Pairwise.nil
  | cons b bs ih =>
    intro seen
    rw [dedupByAux]
    by_cases hb : f b ∈ seen
    · rw [if_pos hb]
      exact ih seen
    · rw [if_neg hb]
      refine List.Pairwise.cons ?_ (ih (f b :: seen))
      intro a ha
      have := dedupByAux_key_unseen f bs (f b :: seen) a ha
      exact fun hba => this (hba ▸ List.mem_cons_self _ _)

theorem dedupBy_pairwise {α β : Type} [DecidableEq β] (f : α → β)
    (l : List α) : (dedupBy f l).Pairwise fun a b => f a ≠ f b :=
  dedupByAux_pairwise f l []

/-! Concrete dataframes used as evaluation inputs. -/

/-- A small well-formed input: two countries over two years. -/
def dfC4 : DataFrame :=
  { indexNames := []
    cols := ["Country", "Year", "Per Capita Water Use (L/Day)"]
    rows := [{ index := [Cell.num 0],
               cells := [Cell.str "Egypt", Cell.num 2000, Cell.num 120] },
             { index := [Cell.num 1],
               cells := [Cell.str "Ghana", Cell.num 2001, Cell.num 95] }] }

/-- A one-column input whose column holds only missing values. -/
def dfC9 : DataFrame :=
  { indexNames := []
    cols := ["X"]
    rows := [{ index := [Cell.num 0], cells := [Cell.na] },
             { index := [Cell.num 1], cells := [Cell.na] }] }

/-! Claim theorems. -/

/-- C2: for every input dataframe, the table returned by `preprocessing`
contains no null value in any (column) cell and no two duplicate rows. -/
theorem C2_preprocessing_clean (df : DataFrame) :
    (∀ r ∈ (preprocessing df).1.rows, rowNoNA r) ∧
    List.Pairwise (fun a b => a ≠ b) (preprocessing df).1.rows := by
  constructor
  · intro r hr
    simp only [preprocessing, dropna, drop_duplicates] at hr
    exact of_decide_eq_true (List.mem_filter.mp hr).2
  · simp only [preprocessing, dropna, drop_duplicates]
    have hpw := dedupBy_pairwise Row.cells
      (if "Year" ∈ df.cols then set_index df "Year" else df).rows
    have hsub := List.filter_sublist
      (l := dedupBy Row.cells
        (if "Year" ∈ df.cols then set_index df "Year" else df).rows)
      (p := fun r => decide (rowNoNA r))
    exact (hpw.sublist hsub).imp fun h hab => h (congrArg Row.cells hab)

/-- C3: `statistical_analysis` is deterministic and idempotent — calling it
twice on a fixed dataframe and column yields equal four-tuples, and neither
call changes the dataframe (the source mutates nothing in place). -/
theorem C3_deterministic_idempotent (df : DataFrame) (col : String) :
    (statistical_analysis_call df col).1 =
      (statistical_analysis_call ((statistical_analysis_call df col).2)
        col).1 ∧
    (statistical_analysis_call df col).2 = df ∧
    (statistical_analysis_call ((statistical_analysis_call df col).2)
      col).2 = df :=
  ⟨rfl, rfl, rfl⟩

/-- C4 counterexample: on a concrete input with Country, Year and a value
column, `preprocessing` indexes the result by `Year` alone, not by the
composite key (Country, Year) the claim states. -/
theorem C4_counterexample_single_index :
    (preprocessing dfC4).1.indexNames = ["Year"] ∧
    (preprocessing dfC4).1.indexNames ≠ ["Country", "Year"] := by
  constructor
  · decide
  · decide

/-- C4 (amended): for every input dataframe containing a `Year` column, the
table returned by `preprocessing` is indexed by `Year` alone. -/
theorem C4_amended_indexed_by_year (df : DataFrame)
    (h : "Year" ∈ df.cols) :
    (preprocessing df).1.indexNames = ["Year"] := by
  simp only [preprocessing, dropna, drop_duplicates, if_pos h, set_index]

theorem C4_amended_witness :
    "Year" ∈ dfC4.cols ∧ (preprocessing dfC4).1.indexNames = ["Year"] :=
  ⟨by decide, C4_amended_indexed_by_year dfC4 (by decide)⟩

/-- C5 counterexample: the claim says any positive skewness selects the
right-skewed phrase, but at the positive skewness 3/10 the code selects
the symmetric phrase — the cutoffs are ±0.5 and ±1, not the sign. -/
theorem C5_counterexample_sign :
    (0 : ℝ) < 3 / 10 ∧ skew_text (3 / 10) = "approximately symmetric" ∧
    "approximately symmetric" ≠ "right-skewed" := by
  refine ⟨by norm_num, ?_, by decide⟩
  unfold skew_text
  rw [if_neg (by norm_num), if_neg (by norm_num)]

/-- C5 (amended): the printed interpretation is selected by two independent
three-way threshold classifications: skewness above 0.5 selects the
right-skewed phrase, below −0.5 the left-skewed phrase, otherwise the
symmetric phrase; excess kurtosis above 1 selects the leptokurtic phrase,
below −1 the platykurtic phrase, otherwise the mesokurtic phrase. -/
theorem C5_amended_threshold_classification (s k : ℝ) :
    (s > 0.5 → skew_text s = "right-skewed") ∧
    (s < -0.5 → skew_text s = "left-skewed") ∧
    (-0.5 ≤ s → s ≤ 0.5 → skew_text s = "approximately symmetric") ∧
    (k > 1 → kurt_text k = "leptokurtic (heavy-tailed)") ∧
    (k < -1 → kurt_text k = "platykurtic (light-tailed)") ∧
    (-1 ≤ k → k ≤ 1 → kurt_text k = "mesokurtic (normal-like)") := by
  unfold skew_text kurt_text
  refine ⟨?_, ?_, ?_, ?_, ?_, ?_⟩ <;> intros <;> split_ifs <;>
    first
    | rfl
    | linarith

theorem C5_amended_witness :
    skew_text 1 = "right-skewed" ∧
    kurt_text 2 = "leptokurtic (heavy-tailed)" := by
  obtain ⟨h1, -, -, h4, -, -⟩ := C5_amended_threshold_classification 1 2
  exact ⟨h1 (by norm_num), h4 (by norm_num)⟩

/-- C9: when the selected column exists but holds no non-null value,
`statistical_analysis` still returns a four-tuple — of NaN values, here
modelled as `none` — rather than raising. -/
theorem C9_all_null_gives_nan_tuple (df : DataFrame) (col : String)
    (cells : List Cell) (hlook : lookupCol df col = some cells)
    (hnull : ∀ c ∈ cells, c = Cell.na) :
    statistical_analysis df col = Except.ok (none, none, none, none) := by
  have hkept : (cells.filter fun c => c ≠ Cell.na) = [] := by
    rw [List.filter_eq_nil_iff]
    intro c hc
    rw [hnull c hc]
    simp
  simp only [statistical_analysis, hlook]
  rw [hkept]
  simp [npMean, npStd, ssSkew, ssKurtosis, centralMoment_nil]

theorem C9_witness :
    lookupCol dfC9 "X" = some [Cell.na, Cell.na] ∧
    statistical_analysis dfC9 "X" = Except.ok (none, none, none, none) :=
  ⟨by decide, C9_all_null_gives_nan_tuple dfC9 "X" [Cell.na, Cell.na]
    (by decide) (by decide)⟩

/-- C10: because duplicates are dropped only after `Year` has moved into
the index, two input rows agreeing on every column except `Year` are
duplicates, and only the first survives `preprocessing`. -/
theorem C10_duplicates_ignore_year (inames cols : List String)
    (r1 r2 : Row) (h : "Year" ∈ cols)
    (heq : r1.cells.eraseIdx (cols.indexOf "Year") =
      r2.cells.eraseIdx (cols.indexOf "Year"))
    (hna : Cell.na ∉ r1.cells.eraseIdx (cols.indexOf "Year")) :
    (preprocessing (DataFrame.mk inames cols [r1, r2])).1.rows =
      [Row.mk [r1.cells.getD (cols.indexOf "Year") Cell.na]
        (r1.cells.eraseIdx (cols.indexOf "Year"))] := by
  simp [preprocessing, dropna, drop_duplicates, set_index, if_pos h,
    dedupBy, dedupByAux, ← heq, rowNoNA, hna]

/-- C1: on a present column, `statistical_analysis` returns, in order, the
arithmetic mean, the standard deviation (Bessel-corrected, as `np.std` with
`ddof=1` computes), the skewness equal to the third standardized moment,
and the excess kurtosis equal to the fourth standardized moment minus 3,
of the non-null values of the column. The hypothesis excludes the
degenerate
data (empty or constant) on which the libraries return NaN. -/
theorem C1_moments_refine (df : DataFrame) (col : String)
    (cells : List Cell) (hlook : lookupCol df col = some cells)
    (hnum : ∀ c ∈ cells, c = Cell.na ∨ Cell.isNum c = true)
    (hm2 : centralMoment 2 (cells.filterMap cellNum) ≠ 0) :
    statistical_analysis df col =
      Except.ok (some (specArithMean (cells.filterMap cellNum)),
        some (specSampleStd (cells.filterMap cellNum)),
        some (specStdMoment 3 (cells.filterMap cellNum)),
        some (specStdMoment 4 (cells.filterMap cellNum) - 3)) := by
  have hall : ((cells.filter fun c => c ≠ Cell.na).all Cell.isNum) =
      true := by
    rw [List.all_eq_true]
    intro c hc
    rcases List.mem_filter.mp hc with ⟨hmem, hne⟩
    rcases hnum c hmem with h | h
    · rw [h] at hne
      simp at hne
    · exact h
  have hne : cells.filterMap cellNum ≠ [] := by
    intro h0
    rw [h0] at hm2
    exact hm2 (centralMoment_nil 2)
  have hlen : ¬ (cells.filterMap cellNum).length ≤ 1 := by
    intro hle
    rcases Nat.le_one_iff_eq_zero_or_eq_one.mp hle with h0 | h1
    · exact hne (List.length_eq_zero.mp h0)
    · obtain ⟨x, hx⟩ := List.length_eq_one.mp h1
      rw [hx] at hm2
      exact hm2 (centralMoment_two_singleton x)
  have h1 : npMean (cells.filterMap cellNum) =
      some (specArithMean (cells.filterMap cellNum)) := by
    rw [npMean, if_neg hne, meanQ_cast]
  have h2 : npStd (cells.filterMap cellNum) =
      some (specSampleStd (cells.filterMap cellNum)) := by
    rw [npStd, if_neg hlen, sampleVar_cast]
    rfl
  have h3 : ssSkew (cells.filterMap cellNum) =
      some (specStdMoment 3 (cells.filterMap cellNum)) := by
    rw [ssSkew, if_neg hm2, centralMoment_cast, centralMoment_cast,
      specStdMoment_eq, specPopulationStd_eq]
  have h4 : ssKurtosis (cells.filterMap cellNum) =
      some (specStdMoment 4 (cells.filterMap cellNum) - 3) := by
    rw [ssKurtosis, if_neg hm2, Rat.cast_div, Rat.cast_pow,
      centralMoment_cast, centralMoment_cast, specStdMoment_eq,
      specPopulationStd_eq]
    have h44 : Real.sqrt (momR 2 (cells.filterMap cellNum)) ^ 4 =
        momR 2 (cells.filterMap cellNum) ^ 2 := by
      rw [show (4 : ℕ) = 2 * 2 from rfl, pow_mul,
        Real.sq_sqrt (momR_two_nonneg (cells.filterMap cellNum))]
    rw [h44]
  simp only [statistical_analysis, hlook]
  rw [if_pos hall, filterMap_cellNum_filter, h1, h2, h3, h4]

theorem C1_witness :
    statistical_analysis dfC4 "Per Capita Water Use (L/Day)" =
      Except.ok
        (some (specArithMean
          ([Cell.num 120, Cell.num 95].filterMap cellNum)),
        some (specSampleStd
          ([Cell.num 120, Cell.num 95].filterMap cellNum)),
        some (specStdMoment 3
          ([Cell.num 120, Cell.num 95].filterMap cellNum)),
        some (specStdMoment 4
          ([Cell.num 120, Cell.num 95].filterMap cellNum) - 3)) :=
  C1_moments_refine dfC4 "Per Capita Water Use (L/Day)"
    [Cell.num 120, Cell.num 95] (by decide) (by decide)
    (by
      have h : List.filterMap cellNum [Cell.num 120, Cell.num 95] =
          [(120 : ℚ), 95] := rfl
      rw [h]
      norm_num [centralMoment, meanQ, nQ])

theorem C10_witness :
    (preprocessing (DataFrame.mk [] ["Country", "Year"]
        [Row.mk [Cell.num 0] [Cell.str "Egypt", Cell.num 2000],
         Row.mk [Cell.num 1] [Cell.str "Egypt", Cell.num 2001]])).1.rows =
      [Row.mk [Cell.num 2000] [Cell.str "Egypt"]] := by
  have h := C10_duplicates_ignore_year [] ["Country", "Year"]
    (Row.mk [Cell.num 0] [Cell.str "Egypt", Cell.num 2000])
    (Row.mk [Cell.num 1] [Cell.str "Egypt", Cell.num 2001])
    (by decide) (by decide) (by decide)
  exact h.trans (by decide)

/-- The image file an effect writes, if any. -/
def effFile : Eff → Option String
  | Eff.savefig n => some n
  | Eff.print _ => none

theorem plot_relational_ok (df : DataFrame) (t : List Eff)
    (h : plot_relational_plot df = Except.ok t) :
    t = [Eff.savefig "relational_plot.png"] := by
  unfold plot_relational_plot at h
  split_ifs at h
  injection h with h
  exact h.symm

theorem plot_statistical_ok (df : DataFrame) (t : List Eff)
    (h : plot_statistical_plot df = Except.ok t) :
    t = [Eff.savefig "statistical_plot.png"] := by
  unfold plot_statistical_plot at h
  split_ifs at h
  injection h with h
  exact h.symm

theorem plot_categorical_ok (df : DataFrame) (t : List Eff)
    (h : plot_categorical_plot df = Except.ok t) :
    t = [Eff.savefig "categorical_plot.png"] := by
  unfold plot_categorical_plot at h
  split_ifs at h
  injection h with h
  exact h.symm

theorem main_error_propagation (df : DataFrame) :
    main none = Except.error Err.fileNotFound ∧
    (∀ e, plot_relational_plot (preprocessing df).1 = Except.error e →
      main (some df) = Except.error e) ∧
    (∀ e t1, plot_relational_plot (preprocessing df).1 = Except.ok t1 →
      plot_statistical_plot (preprocessing df).1 = Except.error e →
      main (some df) = Except.error e) ∧
    (∀ e t1 t2, plot_relational_plot (preprocessing df).1 = Except.ok t1 →
      plot_statistical_plot (preprocessing df).1 = Except.ok t2 →
      plot_categorical_plot (preprocessing df).1 = Except.error e →
      main (some df) = Except.error e) ∧
    (∀ e t1 t2 t3,
      plot_relational_plot (preprocessing df).1 = Except.ok t1 →
      plot_statistical_plot (preprocessing df).1 = Except.ok t2 →
      plot_categorical_plot (preprocessing df).1 = Except.ok t3 →
      statistical_analysis (preprocessing df).1
        "Per Capita Water Use (L/Day)" = Except.error e →
      main (some df) = Except.error e) := by
  refine ⟨rfl, ?_, ?_, ?_, ?_⟩
  · intro e h1
    simp [main, read_csv, bind, Except.bind, h1]
  · intro e t1 h1 h2
    simp [main, read_csv, bind, Except.bind, h1, h2]
  · intro e t1 t2 h1 h2 h3
    simp [main, read_csv, bind, Except.bind, h1, h2, h3]
  · intro e t1 t2 t3 h1 h2 h3 h4
    simp [main, read_csv, bind, Except.bind, h1, h2, h3, h4]

/-- C6: no function catches or transforms an error: a missing file, and a
missing-column failure in any of the chart or analysis steps, each
propagate through `main` unchanged. -/
theorem C6_errors_propagate_uncaught (df : DataFrame) :
    main none = Except.error Err.fileNotFound ∧
    (∀ e, plot_relational_plot (preprocessing df).1 = Except.error e →
      main (some df) = Except.error e) ∧
    (∀ e t1, plot_relational_plot (preprocessing df).1 = Except.ok t1 →
      plot_statistical_plot (preprocessing df).1 = Except.error e →
      main (some df) = Except.error e) ∧
    (∀ e t1 t2, plot_relational_plot (preprocessing df).1 = Except.ok t1 →
      plot_statistical_plot (preprocessing df).1 = Except.ok t2 →
      plot_categorical_plot (preprocessing df).1 = Except.error e →
      main (some df) = Except.error e) ∧
    (∀ e t1 t2 t3,
      plot_relational_plot (preprocessing df).1 = Except.ok t1 →
      plot_statistical_plot (preprocessing df).1 = Except.ok t2 →
      plot_categorical_plot (preprocessing df).1 = Except.ok t3 →
      statistical_analysis (preprocessing df).1
        "Per Capita Water Use (L/Day)" = Except.error e →
      main (some df) = Except.error e) :=
  main_error_propagation df

/-- An input missing the x column of the relational plot. -/
def dfC6 : DataFrame :=
  DataFrame.mk [] ["Country", "Year"]
    [Row.mk [Cell.num 0] [Cell.str "Egypt", Cell.num 2000]]

theorem C6_witness :
    main (some dfC6) = Except.error (Err.valueError "Rainfall Impact (mm)") :=
  (C6_errors_propagate_uncaught dfC6).2.1
    (Err.valueError "Rainfall Impact (mm)") rfl

/-- C8: whenever `main` completes, the files it has written are exactly
`relational_plot.png`, `statistical_plot.png` and `categorical_plot.png`,
in that order, and every remaining effect in its trace is a write of
summary text to standard output. -/
theorem C8_three_files_rest_stdout (file : Option DataFrame)
    (tr : List Eff) (h : main file = Except.ok tr) :
    tr.filterMap effFile =
      ["relational_plot.png", "statistical_plot.png",
       "categorical_plot.png"] ∧
    ∀ e ∈ tr, effFile e = none → ∃ s, e = Eff.print s := by
  cases file with
  | none => exact Except.noConfusion h
  | some df =>
    rcases h1 : plot_relational_plot (preprocessing df).1 with e1 | t1
    · rw [(main_error_propagation df).2.1 e1 h1] at h
      exact Except.noConfusion h
    rcases h2 : plot_statistical_plot (preprocessing df).1 with e2 | t2
    · rw [(main_error_propagation df).2.2.1 e2 t1 h1 h2] at h
      exact Except.noConfusion h
    rcases h3 : plot_categorical_plot (preprocessing df).1 with e3 | t3
    · rw [(main_error_propagation df).2.2.2.1 e3 t1 t2 h1 h2 h3] at h
      exact Except.noConfusion h
    rcases h4 : statistical_analysis (preprocessing df).1
        "Per Capita Water Use (L/Day)" with e4 | m
    · rw [(main_error_propagation df).2.2.2.2 e4 t1 t2 t3
        h1 h2 h3 h4] at h
      exact Except.noConfusion h
    have hmain : main (some df) =
        Except.ok ((preprocessing df).2 ++ t1 ++ t2 ++ t3 ++
          writing m "Per Capita Water Use (L/Day)") := by
      simp [main, read_csv, bind, Except.bind, h1, h2, h3, h4]
    have htr : tr = (preprocessing df).2 ++ t1 ++ t2 ++ t3 ++
        writing m "Per Capita Water Use (L/Day)" := by
      rw [hmain] at h
      injection h with h5
      exact h5.symm
    constructor
    · rw [htr, plot_relational_ok _ _ h1, plot_statistical_ok _ _ h2,
        plot_categorical_ok _ _ h3]
      simp [List.filterMap_append, preprocessing, writing, effFile]
    · intro e he hnone
      cases e with
      | print s => exact ⟨s, rfl⟩
      | savefig n => exact absurd hnone (by simp [effFile])

/-- An input with every needed column whose analysed column is entirely
missing, so the whole run is decidable by evaluation. -/
def dfC8 : DataFrame :=
  DataFrame.mk []
    ["Country", "Year", "Rainfall Impact (mm)",
     "Groundwater Depletion Rate (%)", "Water Scarcity Level",
     "Total Water Consumption (Billion m3)",
     "Per Capita Water Use (L/Day)"]
    [Row.mk [Cell.num 0]
      [Cell.str "Egypt", Cell.num 2000, Cell.num 10, Cell.num 1,
       Cell.str "High", Cell.num 5, Cell.na]]

/-- The trace of a successful run on `dfC8`. -/
noncomputable def trC8 : List Eff :=
  [Eff.print "Dataset Head", Eff.print "Dataset Description",
   Eff.print "Correlation Matrix",
   Eff.savefig "relational_plot.png", Eff.savefig "statistical_plot.png",
   Eff.savefig "categorical_plot.png",
   Eff.print "For the attribute Per Capita Water Use (L/Day):",
   Eff.print "Moment values",
   Eff.print
     "The data is approximately symmetric and mesokurtic (normal-like)."]

/-- The cleaned form of `dfC8`: `Year` became the index and the single
row, holding a NaN, was dropped. -/
def dfC8clean : DataFrame :=
  DataFrame.mk ["Year"]
    ["Country", "Rainfall Impact (mm)", "Groundwater Depletion Rate (%)",
     "Water Scarcity Level", "Total Water Consumption (Billion m3)",
     "Per Capita Water Use (L/Day)"] []

theorem dfC8_preprocess : (preprocessing dfC8).1 = dfC8clean := by decide

theorem dfC8_analysis :
    statistical_analysis (preprocessing dfC8).1
      "Per Capita Water Use (L/Day)" =
      Except.ok (none, none, none, none) := by
  rw [dfC8_preprocess]
  simp [statistical_analysis, lookupCol, dfC8clean, npMean, npStd,
    ssSkew, ssKurtosis, centralMoment_nil]

theorem dfC8_main : main (some dfC8) = Except.ok trC8 := by
  have h1 : plot_relational_plot (preprocessing dfC8).1 =
      Except.ok [Eff.savefig "relational_plot.png"] := by
    rw [dfC8_preprocess]
    rfl
  have h2 : plot_statistical_plot (preprocessing dfC8).1 =
      Except.ok [Eff.savefig "statistical_plot.png"] := by
    rw [dfC8_preprocess]
    rfl
  have h3 : plot_categorical_plot (preprocessing dfC8).1 =
      Except.ok [Eff.savefig "categorical_plot.png"] := by
    rw [dfC8_preprocess]
    rfl
  have hstep : main (some dfC8) =
      Except.ok ((preprocessing dfC8).2 ++
        [Eff.savefig "relational_plot.png"] ++
        [Eff.savefig "statistical_plot.png"] ++
        [Eff.savefig "categorical_plot.png"] ++
        writing (none, none, none, none)
          "Per Capita Water Use (L/Day)") := by
    simp [main, read_csv, bind, Except.bind, h1, h2, h3, dfC8_analysis]
  exact hstep.trans (by rfl)

theorem C8_witness :
    trC8.filterMap effFile =
      ["relational_plot.png", "statistical_plot.png",
       "categorical_plot.png"] :=
  (C8_three_files_rest_stdout (some dfC8) trC8 dfC8_main).1

theorem filterMap_cellNum_num (l : List ℚ) :
    (l.map fun q => Cell.num q).filterMap cellNum = l := by
  induction l with
  | nil => rfl
  | cons a t ih => simp [List.filterMap_cons, cellNum, ih]

/-- A synthetic normally distributed column: the exact frequencies of the
symmetric binomial distribution with 8 trials, the standard discrete
approximation of a normal distribution (256 values, mean 4, variance 2). -/
def binomSample : List ℚ :=
  ([(0, 1), (1, 8), (2, 28), (3, 56), (4, 70), (5, 56), (6, 28), (7, 8),
    (8, 1)] : List (ℚ × ℕ)).flatMap fun p => List.replicate p.2 p.1

/-- The synthetic one-column dataframe carrying `binomSample`. -/
def dfC7 : DataFrame :=
  DataFrame.mk [] ["Synthetic"]
    (binomSample.map fun q => Row.mk [Cell.num 0] [Cell.num q])

/-- C7: on the synthetic normally distributed column,
`statistical_analysis` returns skewness exactly 0 and excess kurtosis
−1/4, both within 1/4 of zero. -/
theorem C7_normal_column_near_zero :
    statistical_analysis dfC7 "Synthetic" =
      Except.ok (some 4, some (Real.sqrt ((512 : ℝ) / 255)),
        some 0, some (-(1 / 4))) ∧
    |(0 : ℝ)| ≤ 1 / 4 ∧ |(-(1 / 4) : ℝ)| ≤ 1 / 4 := by
  have hlook : lookupCol dfC7 "Synthetic" =
      some (binomSample.map fun q => Cell.num q) := by
    simp [lookupCol, dfC7, List.map_map]
  have hdata : (binomSample.map fun q => Cell.num q).filterMap cellNum =
      binomSample := filterMap_cellNum_num binomSample
  have hlen256 : binomSample.length = 256 := by norm_num [binomSample]
  have hne : binomSample ≠ [] := by
    intro h0
    rw [h0] at hlen256
    exact absurd hlen256 (by norm_num)
  have hlen : ¬ binomSample.length ≤ 1 := by
    rw [hlen256]
    norm_num
  have hmean : meanQ binomSample = 4 := by
    norm_num [binomSample, meanQ, nQ]
  have hm2 : centralMoment 2 binomSample = 2 := by
    norm_num [binomSample, centralMoment, meanQ, nQ]
  have hm3 : centralMoment 3 binomSample = 0 := by
    norm_num [binomSample, centralMoment, meanQ, nQ]
  have hm4 : centralMoment 4 binomSample = 11 := by
    norm_num [binomSample, centralMoment, meanQ, nQ]
  have hvar : sampleVar binomSample = 512 / 255 := by
    norm_num [binomSample, sampleVar, meanQ, nQ]
  have hfilter : ((binomSample.map fun q => Cell.num q).filter
      fun c => c ≠ Cell.na) = binomSample.map fun q => Cell.num q := by
    rw [List.filter_eq_self]
    intro c hc
    rcases List.mem_map.mp hc with ⟨q, -, rfl⟩
    simp
  have hall : ((binomSample.map fun q => Cell.num q).all Cell.isNum) =
      true := by
    rw [List.all_eq_true]
    intro c hc
    rcases List.mem_map.mp hc with ⟨q, -, rfl⟩
    rfl
  refine ⟨?_,
    by rw [abs_zero]; norm_num,
    by rw [abs_neg, abs_of_nonneg (by norm_num : (0 : ℝ) ≤ 1 / 4)]⟩
  simp only [statistical_analysis, hlook]
  rw [hfilter, if_pos hall, hdata]
  have e1 : npMean binomSample = some 4 := by
    rw [npMean, if_neg hne, hmean]
    norm_num
  have e2 : npStd binomSample = some (Real.sqrt ((512 : ℝ) / 255)) := by
    rw [npStd, if_neg hlen, hvar]
    norm_num
  have e3 : ssSkew binomSample = some 0 := by
    rw [ssSkew, if_neg (by rw [hm2]; norm_num), hm3]
    norm_num
  have e4 : ssKurtosis binomSample = some (-(1 / 4)) := by
    rw [ssKurtosis, if_neg (by rw [hm2]; norm_num), hm4, hm2]
    norm_num
  rw [e1, e2, e3, e4]

end StatsTrends
